import Mathlib

/-!
Verification of the subscriber service (src/task/subscriber/subscriber_service.py).

The pipeline: a Redis pub/sub listener decodes each message, parses the
payload string SYMBOL:(PRICE, TIMESTAMP), appends a record to a shared
batch buffer, and forwards the tick to Centrifugo; a periodic flush job
drains the buffer and bulk-inserts it into PostgreSQL.

Strings are modelled as List Char.  Python string/float semantics used by
the code are embedded below:
  - str.split(sep)  with a one-character separator (splits on EVERY
    occurrence; tuple unpacking then demands an exact arity),
  - str.strip(chars) (removes characters of the set from both ends),
  - float(s): optional surrounding ASCII whitespace, optional sign, then a
    decimal literal with optional fraction and exponent, or inf/infinity/
    nan case-insensitively.  (Underscore digit separators and non-ASCII
    digits accepted by CPython are outside the model; nothing below
    depends on them.)  Float values are carried exactly as rationals,
    with inf, neginf and nan as extra points; IEEE rounding is abstracted away,
    no claim here depends on it.
-/

/-- Result of Python float(): a finite value carried exactly, or one of
the non-finite points. -/
inductive PyFloat where
  | finite (q : Rat)
  | inf
  | neginf
  | nan
deriving DecidableEq, Repr

/-- Python str.split(sep) for a single-character separator: splits on every
occurrence of the separator; always returns at least one piece. -/
def pySplit (sep : Char) : List Char → List (List Char)
  | [] => [[]]
  | c :: rest =>
    match pySplit sep rest with
    | [] => [[]]
    | h :: t => if c = sep then [] :: h :: t else (c :: h) :: t

/-- Python str.strip(chars): removes any characters of the set from both
ends of the string. -/
def pyStrip (cs : List Char) (s : List Char) : List Char :=
  ((s.dropWhile (fun c => decide (c ∈ cs))).reverse.dropWhile
      (fun c => decide (c ∈ cs))).reverse

/-- ASCII whitespace stripped by Python float(). -/
def isPyWs (c : Char) : Bool :=
  c = ' ' || c = '\t' || c = '\n' || c = '\r' || c = '\x0b' || c = '\x0c'

/-- Strip leading and trailing whitespace (as Python float() does). -/
def stripWs (s : List Char) : List Char :=
  ((s.dropWhile isPyWs).reverse.dropWhile isPyWs).reverse

/-- Numeric value of a digit string. -/
def digitsVal (ds : List Char) : Nat :=
  ds.foldl (fun acc c => 10 * acc + (c.toNat - Char.toNat '0')) 0

/-- Exponent-digit suffix of a float literal: one or more digits ending the
string; scales the mantissa by the corresponding power of ten. -/
def parseExpDigits (q : Rat) (negExp : Bool) (s : List Char) : Option Rat :=
  let ds := s.takeWhile (fun c => c.isDigit)
  let rest := s.dropWhile (fun c => c.isDigit)
  if ds.isEmpty ∨ ¬ rest.isEmpty then none
  else some (if negExp then Rat.divInt q.num ((q.den : Int) * (10 : Int) ^ digitsVal ds)
             else Rat.divInt (q.num * (10 : Int) ^ digitsVal ds) (q.den : Int))

/-- Optional exponent part of a float literal. -/
def parseExpPart (q : Rat) (s : List Char) : Option Rat :=
  match s with
  | [] => some q
  | c :: rest =>
    if c = 'e' ∨ c = 'E' then
      match rest with
      | '+' :: r2 => parseExpDigits q false r2
      | '-' :: r2 => parseExpDigits q true r2
      | r2 => parseExpDigits q false r2
    else none

/-- Unsigned decimal float literal: digits with optional fraction (at least
one digit overall) and optional exponent. -/
def parseDecimal (s : List Char) : Option Rat :=
  let d1 := s.takeWhile (fun c => c.isDigit)
  let r1 := s.dropWhile (fun c => c.isDigit)
  match r1 with
  | '.' :: rest =>
    let d2 := rest.takeWhile (fun c => c.isDigit)
    let r2 := rest.dropWhile (fun c => c.isDigit)
    if d1.isEmpty ∧ d2.isEmpty then none
    else parseExpPart (Rat.divInt (digitsVal (d1 ++ d2) : Int) ((10 : Int) ^ d2.length)) r2
  | _ =>
    if d1.isEmpty then none
    else parseExpPart (digitsVal d1 : Rat) r1

/-- Body of a float literal after the sign: inf/infinity/nan
(case-insensitive) or a decimal literal. -/
def parseUnsigned (neg : Bool) (s : List Char) : Option PyFloat :=
  let low := s.map Char.toLower
  if low = String.toList "inf" ∨ low = String.toList "infinity" then
    some (if neg then PyFloat.neginf else PyFloat.inf)
  else if low = String.toList "nan" then some PyFloat.nan
  else
    match parseDecimal s with
    | some q => some (PyFloat.finite (if neg then -q else q))
    | none => none

/-- Optional sign in front of the literal body. -/
def parseSigned : List Char → Option PyFloat
  | '+' :: rest => parseUnsigned false rest
  | '-' :: rest => parseUnsigned true rest
  | s => parseUnsigned false s

/-- Python float(s) on a string: strip whitespace, then signed literal. -/
def pyFloatParse (s : List Char) : Option PyFloat :=
  parseSigned (stripWs s)

/-- The parsing core of message_handler (subscriber_service.py lines
102-110):
    stock_name, payload = data_str.split(":")
    price_str, timestamp_str = payload.strip("()").split(",")
    price = float(price_str); timestamp = float(timestamp_str)
Any failure (wrong arity of a split, failed float conversion) raises and is
caught by the handler, modelled by none. -/
def parseTick (data : List Char) : Option (List Char × PyFloat × PyFloat) :=
  match pySplit ':' data with
  | [stock_name, payload] =>
    match pySplit ',' (pyStrip ['(', ')'] payload) with
    | [price_str, timestamp_str] =>
      match pyFloatParse price_str, pyFloatParse timestamp_str with
      | some p, some t => some (stock_name, p, t)
      | _, _ => none
    | _ => none
  | _ => none

/-- Environment-derived configuration used by forward_to_centrifugo
(CENTRIFUGO_API_URL, CENTRIFUGO_API_KEY). -/
structure SubConfig where
  centrifugoApiUrl : String
  centrifugoApiKey : String
deriving DecidableEq

/-- One element of batch_buffer: the tuple
(stock_name, channel, price, timestamp) appended by message_handler. -/
structure BatchRecord where
  stock : List Char
  exchange : List Char
  price : PyFloat
  timestamp : PyFloat
deriving DecidableEq, Repr

/-- The outbound HTTP request built by forward_to_centrifugo: the JSON
envelope fields of payload = \x7bmethod, params: \x7bchannel, data\x7d\x7d
(data flattened into its stock/price/timestamp fields) plus the headers
and the target URL. -/
structure GatewayRequest where
  url : String
  method : String
  channel : List Char
  dataStock : List Char
  dataPrice : PyFloat
  dataTimestamp : PyFloat
  contentType : String
  authorization : String
deriving DecidableEq

/-- forward_to_centrifugo (lines 33-49): builds the publish envelope and
posts it.  A failed POST raises requests.RequestException, which the
function catches and logs itself; the request it issues is the value
modelled here. -/
def forward_to_centrifugo (cfg : SubConfig) (channel stock : List Char)
    (price timestamp : PyFloat) : GatewayRequest :=
  { url := cfg.centrifugoApiUrl
    method := "publish"
    channel := channel
    dataStock := stock
    dataPrice := price
    dataTimestamp := timestamp
    contentType := "application/json"
    authorization := "apikey " ++ cfg.centrifugoApiKey }

/-- message_handler (lines 97-123) acting on the buffer: decodes channel
and payload, parses the tick, appends (stock_name, channel, price,
timestamp) to batch_buffer under the lock, then forwards to Centrifugo.
The enclosing try/except Exception catches any parse failure, so a failed
parse leaves the buffer unchanged and issues no gateway request.
Returns (new buffer, gateway requests issued). -/
def message_handler (cfg : SubConfig) (buf : List BatchRecord)
    (channel data : List Char) : List BatchRecord × List GatewayRequest :=
  match parseTick data with
  | some (stock_name, price, timestamp) =>
    (buf ++ [{ stock := stock_name, exchange := channel,
               price := price, timestamp := timestamp }],
     [forward_to_centrifugo cfg channel stock_name price timestamp])
  | none => (buf, [])

/-- The Listener handling a sequence of messages in arrival order; each
message is a (channel, data) pair. -/
def handleMessages (cfg : SubConfig) :
    List BatchRecord → List (List Char × List Char) →
      List BatchRecord × List GatewayRequest
  | buf, [] => (buf, [])
  | buf, (ch, d) :: rest =>
    let r1 := message_handler cfg buf ch d
    let r2 := handleMessages cfg r1.1 rest
    (r2.1, r1.2 ++ r2.2)

/-- The atomic drain performed by insert_batch_to_postgres under the lock
(lines 55-59): to_insert = batch_buffer[:]; batch_buffer.clear().
Returns (taken sequence, new buffer contents). -/
def drain (buf : List BatchRecord) : List BatchRecord × List BatchRecord :=
  (buf, [])

/-- One structured JSON log line printed by insert_batch_to_postgres. -/
structure LogEvent where
  timestamp : String
  metric : String
  value : Rat
  unit : String
  event : String
  service : String
deriving DecidableEq

/-- One iteration of the insert_batch_to_postgres loop (lines 52-95) after
the 5-second sleep.  If the buffer is empty it continues without draining;
otherwise it drains, attempts the executemany insert of the whole drained
sequence (to_insert), and prints exactly one structured log line: the
insert_success line with the measured latency, or (any exception caught)
the postgres_insert_failed line with empty metric/unit and value 0.
insertOk abstracts whether the connect/insert/commit succeeds; now and
elapsed abstract datetime.now() and the measured wall-clock time.
Returns (new buffer, attempted storage inserts, log lines). -/
def insert_batch_cycle (buf : List BatchRecord) (insertOk : Bool)
    (now : String) (elapsed : Rat) :
    List BatchRecord × List (List BatchRecord) × List LogEvent :=
  if buf.isEmpty then (buf, [], [])
  else
    let taken := (drain buf).1
    let rem := (drain buf).2
    if insertOk then
      (rem, [taken],
       [{ timestamp := now, metric := "insert_latency", value := elapsed,
          unit := "seconds", event := "insert_success", service := "subscriber" }])
    else
      (rem, [taken],
       [{ timestamp := now, metric := "", value := 0,
          unit := "", event := "postgres_insert_failed", service := "subscriber" }])

/-- Several consecutive firings of the flush loop.  Each list element
describes one inter-firing window: the records appended by the Listener
since the previous firing, the outcome of the insert attempt, and the
timestamp/latency observed.  Accumulates attempted inserts and log
lines across firings; the loop itself never exits (while True with a
catch-all except), so iteration always proceeds to the next firing. -/
def schedulerRun :
    List BatchRecord → List (List BatchRecord × Bool × String × Rat) →
      List BatchRecord × List (List BatchRecord) × List LogEvent
  | buf, [] => (buf, [], [])
  | buf, (newRecs, ok, now, el) :: rest =>
    let r1 := insert_batch_cycle (buf ++ newRecs) ok now el
    let r2 := schedulerRun r1.1 rest
    (r2.1, r1.2.1 ++ r2.2.1, r1.2.2 ++ r2.2.2)

/-- The retry loop of wait_for_redis (lines 150-160): attempt i pings
Redis; on success return True immediately, on ConnectionError sleep and
retry; after the budget is exhausted return False.  ping i abstracts
whether attempt i reaches Redis. -/
def waitLoop (ping : Nat → Bool) : Nat → Nat → Bool
  | _, 0 => false
  | i, Nat.succ fuel => if ping i then true else waitLoop ping (i + 1) fuel

/-- wait_for_redis with its retries=5 default. -/
def wait_for_redis (ping : Nat → Bool) (retries : Nat) : Bool :=
  waitLoop ping 0 retries

/-- The __main__ startup path (lines 162-169): if wait_for_redis() fails
the process calls exit(1); otherwise it enters the steady-state sleep
loop.  some c models termination with exit status c; none models the
process staying alive. -/
def main_exit (ping : Nat → Bool) : Option Nat :=
  if wait_for_redis ping 5 then none else some 1

/-- Steady-state events the process can observe after startup. -/
inductive SubEvent where
  | msg (channel data : List Char)
  | flushTimer (insertOk : Bool) (now : String) (elapsed : Rat)
  | connectionError
  | forwardFailure

/-- Steady-state handling of one event, mirroring the try/except
structure of the source: message_handler catches every Exception
(including ParseError); insert_batch_to_postgres catches every Exception
around the insert; the listen loop catches connection errors and retries
after 3 seconds; forward_to_centrifugo catches RequestException.  Each
handler returns control with an updated buffer instead of propagating. -/
def subscriberStep (cfg : SubConfig) (buf : List BatchRecord)
    (e : SubEvent) : List BatchRecord :=
  match e with
  | SubEvent.msg ch d => (message_handler cfg buf ch d).1
  | SubEvent.flushTimer ok now el => (insert_batch_cycle buf ok now el).1
  | SubEvent.connectionError => buf
  | SubEvent.forwardFailure => buf

/-- Whether the process is still running or has terminated. -/
inductive ProcStatus where
  | running (buf : List BatchRecord)
  | exited (code : Nat)

/-- Steady-state transition at the process level: no event path reaches
an exit call, every handler resumes the loops. -/
def subscriberStepRun (cfg : SubConfig) (buf : List BatchRecord)
    (e : SubEvent) : ProcStatus :=
  ProcStatus.running (subscriberStep cfg buf e)

/-- The parenthesized pair part of the wire format, after the opening
parenthesis: PRICE, then comma and space, then TIMESTAMP and the closing
parenthesis. -/
def pairBody (p t : List Char) : List Char :=
  p ++ (',' :: (' ' :: (t ++ [')'])))

/-- The wire format of a tick payload: SYMBOL:(PRICE, TIMESTAMP), as
documented in the spec and produced by the generator
(f-string of stock and the tuple (new_price, timestamp)). -/
def wirePayload (sym p t : List Char) : List Char :=
  sym ++ (':' :: ('(' :: pairBody p t))

/-- A field string free of the wire format's delimiter characters (as any
string accepted by float() is). -/
def noDelim (s : List Char) : Prop :=
  ':' ∉ s ∧ ',' ∉ s ∧ '(' ∉ s ∧ ')' ∉ s

instance (s : List Char) : Decidable (noDelim s) := by
  unfold noDelim; infer_instance

/-- The records a message sequence contributes to the buffer, in arrival
order: one BatchRecord per successfully parsed message. -/
def parsedBatch (msgs : List (List Char × List Char)) : List BatchRecord :=
  msgs.filterMap fun m =>
    (parseTick m.2).map fun r =>
      { stock := r.1, exchange := m.1, price := r.2.1, timestamp := r.2.2 }

/-- The documented default configuration (CENTRIFUGO_API_URL and
CENTRIFUGO_API_KEY env defaults). -/
def defaultConfig : SubConfig :=
  { centrifugoApiUrl := "http://centrifugo:8000/api"
    centrifugoApiKey := "centrifugo-api-key" }

/-- A sample buffered record, used to instantiate universally quantified
statements. -/
def sampleRecord : BatchRecord :=
  { stock := String.toList "AAPL", exchange := String.toList "NASDAQ",
    price := PyFloat.finite 1, timestamp := PyFloat.finite 2 }

/-- A second sample buffered record. -/
def sampleRecord2 : BatchRecord :=
  { stock := String.toList "TSLA", exchange := String.toList "NYSE",
    price := PyFloat.finite 3, timestamp := PyFloat.finite 4 }

example : parseTick (String.toList "AAPL:(220.4, 1757494917.02)") =
    some (String.toList "AAPL", PyFloat.finite (Rat.divInt 1102 5),
          PyFloat.finite (Rat.divInt 87874745851 50)) := by decide

example : parseTick (String.toList "AAPL") = none := by decide

example : parseTick (String.toList "AAPL:(x, 1.0)") = none := by decide

example : parseTick (String.toList "AAPL:220.4,1.0") =
    some (String.toList "AAPL", PyFloat.finite (Rat.divInt 1102 5),
          PyFloat.finite 1) := by decide

example : parseTick (String.toList "A:B:(1.0, 2.0)") = none := by decide

theorem pySplit_ne_nil (sep : Char) (s : List Char) : pySplit sep s ≠ [] := by
  induction s with
  | nil => simp [pySplit]
  | cons c rest ih =>
    simp only [pySplit]
    cases h : pySplit sep rest with
    | nil => simp
    | cons hh tt => by_cases hc : c = sep <;> simp [hc]

theorem pySplit_no_sep (sep : Char) (s : List Char) (h : sep ∉ s) :
    pySplit sep s = [s] := by
  induction s with
  | nil => simp [pySplit]
  | cons c rest ih =>
    have hc : c ≠ sep := fun e => h (e ▸ List.mem_cons_self c rest)
    have hr : sep ∉ rest := fun m => h (List.mem_cons_of_mem _ m)
    simp [pySplit, ih hr, hc]

theorem pySplit_append (sep : Char) (a b : List Char) (h : sep ∉ a) :
    pySplit sep (a ++ sep :: b) = a :: pySplit sep b := by
  induction a with
  | nil =>
    simp only [List.nil_append, pySplit]
    cases hb : pySplit sep b with
    | nil => exact absurd hb (pySplit_ne_nil sep b)
    | cons hh tt => simp
  | cons c a ih =>
    have hc : c ≠ sep := fun e => h (e ▸ List.mem_cons_self c a)
    have ha : sep ∉ a := fun m => h (List.mem_cons_of_mem _ m)
    rw [List.cons_append]
    simp only [pySplit]
    rw [ih ha]
    simp [hc]

theorem pySplit_length (sep : Char) (s : List Char) :
    (pySplit sep s).length = s.count sep + 1 := by
  induction s with
  | nil => simp [pySplit]
  | cons c rest ih =>
    simp only [pySplit]
    cases h : pySplit sep rest with
    | nil => exact absurd h (pySplit_ne_nil sep rest)
    | cons hh tt =>
      rw [h] at ih
      simp only [List.length_cons] at ih
      by_cases hc : c = sep
      · subst hc
        simp only [if_pos rfl, List.length_cons, List.count_cons, beq_self_eq_true,
          if_true]
        omega
      · have hbeq : (c == sep) = false := by simp [hc]
        simp only [if_neg hc, List.length_cons, List.count_cons, hbeq, Bool.false_eq_true,
          if_false]
        omega

theorem pyStrip_pair (p t : List Char)
    (hp : ∀ c ∈ p, c ≠ '(' ∧ c ≠ ')')
    (ht : ∀ c ∈ t, c ≠ '(' ∧ c ≠ ')') :
    pyStrip ['(', ')'] ('(' :: pairBody p t) = p ++ (',' :: (' ' :: t)) := by
  have e1 : (('(' :: pairBody p t).dropWhile
      (fun c => decide (c ∈ (['(', ')'] : List Char)))) = pairBody p t := by
    rw [List.dropWhile_cons, if_pos (by simp)]
    unfold pairBody
    cases p with
    | nil =>
      rw [List.nil_append, List.dropWhile_cons, if_neg (by simp)]
    | cons c0 p0 =>
      obtain ⟨a, b⟩ := hp c0 (List.mem_cons_self c0 p0)
      rw [List.cons_append, List.dropWhile_cons, if_neg (by simp [a, b])]
  have e2 : (pairBody p t).reverse =
      ')' :: (t.reverse ++ (' ' :: (',' :: p.reverse))) := by
    unfold pairBody
    simp
  have e3 : ((')' :: (t.reverse ++ (' ' :: (',' :: p.reverse)))).dropWhile
      (fun c => decide (c ∈ (['(', ')'] : List Char)))) =
      t.reverse ++ (' ' :: (',' :: p.reverse)) := by
    rw [List.dropWhile_cons, if_pos (by simp)]
    cases hrev : t.reverse with
    | nil =>
      rw [List.nil_append, List.dropWhile_cons, if_neg (by simp)]
    | cons c0 u =>
      have hc0t : c0 ∈ t := by
        have : c0 ∈ t.reverse := by rw [hrev]; exact List.mem_cons_self c0 u
        simpa using this
      obtain ⟨a, b⟩ := ht c0 hc0t
      rw [List.cons_append, List.dropWhile_cons, if_neg (by simp [a, b])]
  have e4 : (t.reverse ++ (' ' :: (',' :: p.reverse))).reverse =
      p ++ (',' :: (' ' :: t)) := by
    simp
  unfold pyStrip
  rw [e1, e2, e3, e4]

theorem pyFloatParse_cons_space (t : List Char) :
    pyFloatParse (' ' :: t) = pyFloatParse t := by
  unfold pyFloatParse stripWs
  simp [List.dropWhile_cons, isPyWs]

/-- The full parsing pipeline on a payload of the wire format: split at
the unique colon, strip the parentheses, split at the unique comma, then
float() both fields (the timestamp field sees the space left by the
comma-split, which float() strips). -/
theorem parseTick_wire (sym p t : List Char) (hsym : ':' ∉ sym)
    (hp : noDelim p) (ht : noDelim t) :
    parseTick (wirePayload sym p t) =
      match pyFloatParse p, pyFloatParse t with
      | some vp, some vt => some (sym, vp, vt)
      | _, _ => none := by
  obtain ⟨hp1, hp2, hp3, hp4⟩ := hp
  obtain ⟨ht1, ht2, ht3, ht4⟩ := ht
  have hnosep : ':' ∉ '(' :: pairBody p t := by
    intro hmem
    simp [pairBody, List.mem_append, List.mem_cons, hp1, ht1] at hmem
  have hsplit : pySplit ':' (wirePayload sym p t) =
      [sym, '(' :: pairBody p t] := by
    rw [wirePayload, pySplit_append _ _ _ hsym, pySplit_no_sep _ _ hnosep]
  have hstrip : pyStrip ['(', ')'] ('(' :: pairBody p t) =
      p ++ (',' :: (' ' :: t)) :=
    pyStrip_pair p t
      (fun c hc => ⟨fun e => hp3 (e ▸ hc), fun e => hp4 (e ▸ hc)⟩)
      (fun c hc => ⟨fun e => ht3 (e ▸ hc), fun e => ht4 (e ▸ hc)⟩)
  have hnosep2 : ',' ∉ (' ' :: t) := by
    intro hmem
    simp [List.mem_cons, ht2] at hmem
  have hsplit2 : pySplit ',' (p ++ (',' :: (' ' :: t))) = [p, ' ' :: t] := by
    rw [pySplit_append _ _ _ hp2, pySplit_no_sep _ _ hnosep2]
  rw [parseTick, hsplit]
  simp only [hstrip, hsplit2, pyFloatParse_cons_space]

theorem handleMessages_fst (cfg : SubConfig) :
    ∀ (msgs : List (List Char × List Char)) (buf : List BatchRecord),
      (handleMessages cfg buf msgs).1 = buf ++ parsedBatch msgs := by
  intro msgs
  induction msgs with
  | nil => intro buf; simp [handleMessages, parsedBatch]
  | cons m rest ih =>
    intro buf
    obtain ⟨ch, d⟩ := m
    cases hp : parseTick d with
    | none =>
      simp [handleMessages, message_handler, hp, parsedBatch, List.filterMap_cons, ih]
    | some r =>
      obtain ⟨s0, p0, t0⟩ := r
      simp [handleMessages, message_handler, hp, parsedBatch, List.filterMap_cons, ih]

theorem waitLoop_all_false (ping : Nat → Bool) :
    ∀ (fuel start : Nat), (∀ j, j < fuel → ping (start + j) = false) →
      waitLoop ping start fuel = false := by
  intro fuel
  induction fuel with
  | zero => intro start _; rfl
  | succ n ih =>
    intro start h
    have h0 : ping start = false := by simpa using h 0 (Nat.succ_pos n)
    rw [waitLoop, h0]
    simp only [Bool.false_eq_true, if_false]
    apply ih
    intro j hj
    have e : start + 1 + j = start + (j + 1) := by omega
    rw [e]
    exact h (j + 1) (by omega)

theorem waitLoop_exists_true (ping : Nat → Bool) :
    ∀ (fuel start j : Nat), j < fuel → ping (start + j) = true →
      waitLoop ping start fuel = true := by
  intro fuel
  induction fuel with
  | zero => intro start j hj _; exact absurd hj (Nat.not_lt_zero j)
  | succ n ih =>
    intro start j hj hp
    by_cases h0 : ping start = true
    · rw [waitLoop, h0]
      simp
    · cases j with
      | zero =>
        rw [Nat.add_zero] at hp
        exact absurd hp h0
      | succ k =>
        have h0f : ping start = false := by
          cases hb : ping start
          · rfl
          · exact absurd hb h0
        rw [waitLoop, h0f]
        simp only [Bool.false_eq_true, if_false]
        apply ih (start + 1) k (by omega)
        have e : start + 1 + k = start + (k + 1) := by omega
        rw [e]
        exact hp

/-- C1 counterexample: the payload AAPL:220.4,1.0 has no parentheses at
all, yet the Parser succeeds on it (strip("()") removes nothing and the
comma-split still yields two float-parsable fields), contradicting the
claim that every payload missing the parentheses fails. -/
theorem parse_missing_parens_accepted :
    parseTick (String.toList "AAPL:220.4,1.0") =
      some (String.toList "AAPL", PyFloat.finite (Rat.divInt 1102 5),
            PyFloat.finite 1) ∧
    ¬ parseTick (String.toList "AAPL:220.4,1.0") = none := by
  constructor
  · decide
  · decide

/-- C1 (amended): for every payload of the form SYMBOL:(PRICE, TIMESTAMP)
whose fields parse as floats, the Parser returns exactly
(SYMBOL, PRICE, TIMESTAMP); the Parser fails on every payload with no
colon, and on every wire-format payload either of whose fields fails
float parsing.  (A payload missing the parentheses does NOT necessarily
fail: parentheses are only stripped from the ends if present.) -/
theorem parse_tick_contract :
    (∀ (sym p t : List Char) (vp vt : PyFloat), ':' ∉ sym →
       noDelim p → noDelim t →
       pyFloatParse p = some vp → pyFloatParse t = some vt →
       parseTick (wirePayload sym p t) = some (sym, vp, vt)) ∧
    (∀ data : List Char, ':' ∉ data → parseTick data = none) ∧
    (∀ (sym p t : List Char), ':' ∉ sym → noDelim p → noDelim t →
       (pyFloatParse p = none ∨ pyFloatParse t = none) →
       parseTick (wirePayload sym p t) = none) := by
  refine ⟨?_, ?_, ?_⟩
  · intro sym p t vp vt hsym hp ht hvp hvt
    rw [parseTick_wire sym p t hsym hp ht, hvp, hvt]
  · intro data h
    rw [parseTick, pySplit_no_sep _ _ h]
  · intro sym p t hsym hp ht h
    rw [parseTick_wire sym p t hsym hp ht]
    rcases h with h | h
    · cases hx : pyFloatParse t <;> rw [h]
    · cases hx : pyFloatParse p <;> rw [h]

/-- C1 witness: the three parts of the contract at concrete inputs. -/
theorem parse_tick_contract_witness :
    parseTick (wirePayload (String.toList "AAPL") (String.toList "220.4")
        (String.toList "1.5")) =
      some (String.toList "AAPL", PyFloat.finite (Rat.divInt 1102 5),
            PyFloat.finite (Rat.divInt 3 2)) ∧
    parseTick (String.toList "AAPL") = none ∧
    parseTick (wirePayload (String.toList "AAPL") (String.toList "abc")
        (String.toList "1.5")) = none :=
  ⟨parse_tick_contract.1 _ _ _ _ _ (by decide) (by decide) (by decide)
      (by decide) (by decide),
   parse_tick_contract.2.1 _ (by decide),
   parse_tick_contract.2.2 _ _ _ (by decide) (by decide) (by decide)
      (Or.inl (by decide))⟩

/-- C2: two consecutive drains with no intervening append: the first
returns the entire accumulated sequence, the second returns the empty
sequence, and no record is returned by both. -/
theorem drain_twice (buf : List BatchRecord) :
    (drain buf).1 = buf ∧
    (drain (drain buf).2).1 = [] ∧
    ∀ r : BatchRecord, r ∈ (drain buf).1 → r ∉ (drain (drain buf).2).1 := by
  refine ⟨rfl, rfl, ?_⟩
  intro r _
  simp [drain]

/-- C2 witness: the double-drain contract at a concrete one-record
buffer. -/
theorem drain_twice_witness :
    (drain [sampleRecord]).1 = [sampleRecord] ∧
    (drain (drain [sampleRecord]).2).1 = [] ∧
    sampleRecord ∉ (drain (drain [sampleRecord]).2).1 :=
  ⟨(drain_twice [sampleRecord]).1, (drain_twice [sampleRecord]).2.1,
   (drain_twice [sampleRecord]).2.2 sampleRecord
     (by exact List.mem_cons_self sampleRecord [])⟩

/-- C3: a failed insert discards the drained batch entirely (the buffer
after the failed cycle is empty, nothing is re-buffered and the failed
batch is never re-attempted), and the scheduler goes on to the next
firing, which succeeds on exactly the records appended after the failed
drain. -/
theorem flush_failure_isolated (buf newRecs : List BatchRecord)
    (now now2 : String) (el el2 : Rat)
    (h1 : buf ≠ []) (h2 : newRecs ≠ []) :
    (insert_batch_cycle buf false now el).1 = [] ∧
    schedulerRun buf [([], false, now, el), (newRecs, true, now2, el2)] =
      ([], [buf, newRecs],
       [{ timestamp := now, metric := "", value := 0, unit := "",
          event := "postgres_insert_failed", service := "subscriber" },
        { timestamp := now2, metric := "insert_latency", value := el2,
          unit := "seconds", event := "insert_success",
          service := "subscriber" }]) := by
  have hb : buf.isEmpty = false := by
    cases buf
    · exact absurd rfl h1
    · rfl
  have hn : newRecs.isEmpty = false := by
    cases newRecs
    · exact absurd rfl h2
    · rfl
  constructor
  · simp [insert_batch_cycle, drain, hb]
  · simp [schedulerRun, insert_batch_cycle, drain, hb, hn]

/-- C3 witness: a failed flush of one record followed by a successful
flush of a record appended afterwards. -/
theorem flush_failure_isolated_witness :
    (insert_batch_cycle [sampleRecord] false "t1" 1).1 = [] ∧
    schedulerRun [sampleRecord]
        [([], false, "t1", 1), ([sampleRecord2], true, "t2", 2)] =
      ([], [[sampleRecord], [sampleRecord2]],
       [{ timestamp := "t1", metric := "", value := 0, unit := "",
          event := "postgres_insert_failed", service := "subscriber" },
        { timestamp := "t2", metric := "insert_latency", value := 2,
          unit := "seconds", event := "insert_success",
          service := "subscriber" }]) :=
  flush_failure_isolated [sampleRecord] [sampleRecord2] "t1" "t2" 1 2
    (by simp) (by simp)

/-- C4: a parse failure leaves the buffer unchanged, issues no gateway
request, and the rest of the message stream is handled exactly as if the
offending message never existed. -/
theorem parse_error_isolated (cfg : SubConfig) (buf : List BatchRecord)
    (ch data : List Char) (h : parseTick data = none) :
    message_handler cfg buf ch data = (buf, []) ∧
    ∀ rest : List (List Char × List Char),
      handleMessages cfg buf ((ch, data) :: rest) =
        handleMessages cfg buf rest := by
  constructor
  · simp [message_handler, h]
  · intro rest
    simp [handleMessages, message_handler, h]

/-- C4 witness: a malformed payload is dropped and a following
well-formed message is processed as if the bad one never arrived. -/
theorem parse_error_isolated_witness :
    message_handler defaultConfig [] (String.toList "NASDAQ")
        (String.toList "garbage") = ([], []) ∧
    handleMessages defaultConfig []
        [(String.toList "NASDAQ", String.toList "garbage"),
         (String.toList "NYSE", String.toList "TSLA:(1.0, 2.0)")] =
      handleMessages defaultConfig []
        [(String.toList "NYSE", String.toList "TSLA:(1.0, 2.0)")] :=
  ⟨(parse_error_isolated defaultConfig [] (String.toList "NASDAQ")
      (String.toList "garbage") (by decide)).1,
   (parse_error_isolated defaultConfig [] (String.toList "NASDAQ")
      (String.toList "garbage") (by decide)).2
     [(String.toList "NYSE", String.toList "TSLA:(1.0, 2.0)")]⟩

/-- C5 counterexample: a firing of the flush loop with an empty buffer
emits no log event at all, contradicting the claim that every firing
emits exactly one. -/
theorem empty_flush_emits_no_log :
    (insert_batch_cycle [] true "2026-10-12T00:00:00" 0).2.2 = [] ∧
    ¬ (insert_batch_cycle [] true "2026-10-12T00:00:00" 0).2.2.length = 1 := by
  constructor
  · rfl
  · decide

/-- C5 (amended): every firing that drains a non-empty buffer emits
exactly one structured log event carrying the outcome — on success
metric insert_latency with the measured value and unit seconds, on
failure empty metric, value 0 and empty unit; a firing with an empty
buffer emits no log event. -/
theorem flush_log_schema (buf : List BatchRecord) (ok : Bool)
    (now : String) (elapsed : Rat) (h : buf ≠ []) :
    (insert_batch_cycle buf ok now elapsed).2.2 =
      [if ok then
        { timestamp := now, metric := "insert_latency", value := elapsed,
          unit := "seconds", event := "insert_success",
          service := "subscriber" }
       else
        { timestamp := now, metric := "", value := 0, unit := "",
          event := "postgres_insert_failed", service := "subscriber" }] ∧
    (insert_batch_cycle [] ok now elapsed).2.2 = [] := by
  have hb : buf.isEmpty = false := by
    cases buf
    · exact absurd rfl h
    · rfl
  constructor
  · cases ok <;> simp [insert_batch_cycle, drain, hb]
  · cases ok <;> rfl

/-- C5 witness: the log schema at a concrete one-record buffer, for both
outcomes. -/
theorem flush_log_schema_witness :
    (insert_batch_cycle [sampleRecord] true "t" 2).2.2 =
      [if true then
        { timestamp := "t", metric := "insert_latency", value := 2,
          unit := "seconds", event := "insert_success",
          service := "subscriber" }
       else
        { timestamp := "t", metric := "", value := 0, unit := "",
          event := "postgres_insert_failed", service := "subscriber" }] ∧
    (insert_batch_cycle [] true "t" 2).2.2 = [] :=
  flush_log_schema [sampleRecord] true "t" 2 (by simp)

/-- C6: draining an empty buffer yields the empty sequence (no error),
and a flush firing with an empty buffer performs zero storage-engine
calls and emits nothing. -/
theorem empty_buffer_flush (ok : Bool) (now : String) (elapsed : Rat) :
    drain [] = ([], []) ∧
    insert_batch_cycle [] ok now elapsed = ([], [], []) := by
  refine ⟨rfl, ?_⟩
  cases ok <;> rfl

/-- C7: every successfully parsed tick triggers exactly one outbound
gateway request, carrying the publish envelope with the tick's
originating channel, the parsed stock/price/timestamp as data, the
configured URL and the apikey authorization header — independent of the
buffer contents (hence of batching and flush outcome). -/
theorem forward_per_tick (cfg : SubConfig) (buf : List BatchRecord)
    (ch data stock : List Char) (price timestamp : PyFloat)
    (h : parseTick data = some (stock, price, timestamp)) :
    (message_handler cfg buf ch data).2 =
      [{ url := cfg.centrifugoApiUrl, method := "publish", channel := ch,
         dataStock := stock, dataPrice := price, dataTimestamp := timestamp,
         contentType := "application/json",
         authorization := "apikey " ++ cfg.centrifugoApiKey }] ∧
    ∀ buf2 : List BatchRecord,
      (message_handler cfg buf2 ch data).2 =
        (message_handler cfg buf ch data).2 := by
  constructor
  · simp [message_handler, h, forward_to_centrifugo]
  · intro buf2
    simp [message_handler, h]

/-- C7 witness: the forwarded request for a concrete parsed tick. -/
theorem forward_per_tick_witness :
    (message_handler defaultConfig [sampleRecord] (String.toList "NASDAQ")
        (String.toList "AAPL:(220.4, 1.5)")).2 =
      [{ url := defaultConfig.centrifugoApiUrl, method := "publish",
         channel := String.toList "NASDAQ",
         dataStock := String.toList "AAPL",
         dataPrice := PyFloat.finite (Rat.divInt 1102 5),
         dataTimestamp := PyFloat.finite (Rat.divInt 3 2),
         contentType := "application/json",
         authorization := "apikey " ++ defaultConfig.centrifugoApiKey }] ∧
    ∀ buf2 : List BatchRecord,
      (message_handler defaultConfig buf2 (String.toList "NASDAQ")
          (String.toList "AAPL:(220.4, 1.5)")).2 =
        (message_handler defaultConfig [sampleRecord] (String.toList "NASDAQ")
            (String.toList "AAPL:(220.4, 1.5)")).2 :=
  forward_per_tick defaultConfig [sampleRecord] (String.toList "NASDAQ")
    (String.toList "AAPL:(220.4, 1.5)") (String.toList "AAPL")
    (PyFloat.finite (Rat.divInt 1102 5)) (PyFloat.finite (Rat.divInt 3 2))
    (by decide)

/-- C8: if every ping of the 5-attempt startup probe fails, the process
terminates with a non-zero exit status; if some attempt within the budget
succeeds, startup completes and the process stays alive; and in steady
state no event — message (including parse failures), flush firing
(including insert failures), connection error or forward failure — ever
terminates the process. -/
theorem readiness_exit_policy :
    (∀ ping : Nat → Bool, (∀ i, i < 5 → ping i = false) →
       ∃ c, main_exit ping = some c ∧ c ≠ 0) ∧
    (∀ (ping : Nat → Bool) (i : Nat), i < 5 → ping i = true →
       main_exit ping = none) ∧
    (∀ (cfg : SubConfig) (buf : List BatchRecord) (e : SubEvent),
       ∃ b, subscriberStepRun cfg buf e = ProcStatus.running b) := by
  refine ⟨?_, ?_, ?_⟩
  · intro ping h
    refine ⟨1, ?_, one_ne_zero⟩
    have hw : wait_for_redis ping 5 = false := by
      apply waitLoop_all_false
      intro j hj
      simpa using h j hj
    simp [main_exit, hw]
  · intro ping i hi hp
    have hw : wait_for_redis ping 5 = true := by
      apply waitLoop_exists_true ping 5 0 i hi
      simpa using hp
    simp [main_exit, hw]
  · intro cfg buf e
    exact ⟨subscriberStep cfg buf e, rfl⟩

/-- C8 witness: a probe that never reaches Redis exits with status 1; a
probe that succeeds on its third attempt leaves the process running; a
steady-state connection error leaves the process running. -/
theorem readiness_exit_policy_witness :
    (∃ c, main_exit (fun _ => false) = some c ∧ c ≠ 0) ∧
    main_exit (fun i => decide (i = 2)) = none ∧
    (∃ b, subscriberStepRun defaultConfig [] SubEvent.connectionError =
       ProcStatus.running b) :=
  ⟨readiness_exit_policy.1 (fun _ => false) (fun _ _ => rfl),
   readiness_exit_policy.2.1 (fun i => decide (i = 2)) 2 (by decide) (by decide),
   readiness_exit_policy.2.2 defaultConfig [] SubEvent.connectionError⟩

/-- C9: handling a message sequence appends exactly the successfully
parsed records, in arrival order, at the tail of the buffer; and a flush
of a non-empty buffer passes exactly that buffer, in that order, as the
single storage insert. -/
theorem append_flush_ordering (cfg : SubConfig) (buf : List BatchRecord)
    (msgs : List (List Char × List Char)) (ok : Bool) (now : String)
    (elapsed : Rat) (h : buf ≠ []) :
    (handleMessages cfg buf msgs).1 = buf ++ parsedBatch msgs ∧
    (insert_batch_cycle buf ok now elapsed).2.1 = [buf] := by
  have hb : buf.isEmpty = false := by
    cases buf
    · exact absurd rfl h
    · rfl
  constructor
  · exact handleMessages_fst cfg msgs buf
  · cases ok <;> simp [insert_batch_cycle, drain, hb]

/-- C9 witness: ordering at a concrete stream of two good messages and
one malformed one, flushed from a concrete non-empty buffer. -/
theorem append_flush_ordering_witness :
    (handleMessages defaultConfig [sampleRecord]
        [(String.toList "NASDAQ", String.toList "AAPL:(1.0, 2.0)"),
         (String.toList "NASDAQ", String.toList "bad"),
         (String.toList "NYSE", String.toList "TSLA:(3.0, 4.0)")]).1 =
      [sampleRecord] ++ parsedBatch
        [(String.toList "NASDAQ", String.toList "AAPL:(1.0, 2.0)"),
         (String.toList "NASDAQ", String.toList "bad"),
         (String.toList "NYSE", String.toList "TSLA:(3.0, 4.0)")] ∧
    (insert_batch_cycle [sampleRecord] true "t" 0).2.1 = [[sampleRecord]] :=
  append_flush_ordering defaultConfig [sampleRecord]
    [(String.toList "NASDAQ", String.toList "AAPL:(1.0, 2.0)"),
     (String.toList "NASDAQ", String.toList "bad"),
     (String.toList "NYSE", String.toList "TSLA:(3.0, 4.0)")]
    true "t" 0 (by simp)

/-- C10: any payload containing two or more colons makes the two-element
unpacking of data_str.split(":") fail, so the message is discarded and
the buffer is left unchanged — even though the spec describes splitting
at the first colon only. -/
theorem multi_colon_rejected (data : List Char)
    (h : 2 ≤ data.count ':') :
    parseTick data = none ∧
    ∀ (cfg : SubConfig) (buf : List BatchRecord) (ch : List Char),
      message_handler cfg buf ch data = (buf, []) := by
  have hlen := pySplit_length ':' data
  have h3 : 3 ≤ (pySplit ':' data).length := by omega
  have hnone : parseTick data = none := by
    rcases hsp : pySplit ':' data with _ | ⟨a, _ | ⟨b, _ | ⟨c, rest⟩⟩⟩
    · rw [hsp] at h3; simp at h3
    · rw [hsp] at h3; simp at h3
    · rw [hsp] at h3; simp at h3
    · rw [parseTick, hsp]
  refine ⟨hnone, ?_⟩
  intro cfg buf ch
  simp [message_handler, hnone]

/-- C10 witness: a payload with a second colon after a well-formed pair
is rejected and leaves the buffer unchanged. -/
theorem multi_colon_rejected_witness :
    parseTick (String.toList "AAPL:(1.0, 2.0):x") = none ∧
    message_handler defaultConfig [] (String.toList "NASDAQ")
      (String.toList "AAPL:(1.0, 2.0):x") = ([], []) :=
  ⟨(multi_colon_rejected (String.toList "AAPL:(1.0, 2.0):x") (by decide)).1,
   (multi_colon_rejected (String.toList "AAPL:(1.0, 2.0):x") (by decide)).2
     defaultConfig [] (String.toList "NASDAQ")⟩
